import Mathlib

/-!
# Verification of the KMU-AELAB Active-Learning repository

A shallow embedding, in Lean 4, of the parts of the repository that the
specification's claims are about:

* `task/graph/loss.py` — the pairwise ranking loss (`RankingLoss.forward`);
* `query/graph/vae.py` — the residual block (`Residual.forward`), the encoder
  shape pipeline and the latent-statistics projections of `VAE.forward`;
* `query/strategy.py` — the per-batch training loss, the evaluation-phase
  accuracy counters, the checkpoint loader, the learning-rate scheduler
  configuration and the call sites of the uncertainty network.

Tensors of per-example scalars are modelled as `List ℚ`; images as rational
valued functions of (channel, row, column); the fallible pieces of the Python
code (division by a zero size, a mis-arity call) as `Option`/`Except` values.
-/

/-! ## Tensor primitives (the external tensor library's operations, value level)

Each definition mirrors one elementwise primitive used by the repository.
Division of a tensor sum by a zero element count does not produce a rational
number (the library yields NaN there); this is modelled by `Option ℚ` with
`none` for the undefined case.
-/

/-- `torch.sign`, pointwise: `+1` for positive, `-1` for negative, `0` at `0`. -/
def torchSign (x : ℚ) : ℚ :=
  if 0 < x then 1 else if x < 0 then -1 else 0

/-- `torch.clamp(x, min=m)`, pointwise. -/
def torchClampMin (x m : ℚ) : ℚ := max x m

/-- `t.flip(0)` on a rank-1 tensor: reversal along dimension 0. -/
def torchFlip0 (l : List ℚ) : List ℚ := l.reverse

/-- Elementwise subtraction of two rank-1 tensors of equal length. -/
def torchSub (a b : List ℚ) : List ℚ := List.zipWith (fun x y => x - y) a b

/-- Elementwise product of two rank-1 tensors of equal length. -/
def torchMul (a b : List ℚ) : List ℚ := List.zipWith (fun x y => x * y) a b

/-- `torch.sum` of a rank-1 tensor. -/
def torchSum (l : List ℚ) : ℚ := l.sum

/-- Division of a scalar by a size (`loss / tensor.size(0)`): a zero size gives
no rational result (`none`, NaN in the library), otherwise the exact quotient. -/
def torchDivSize (x : ℚ) (n : Nat) : Option ℚ :=
  if n = 0 then none else some (x / (n : ℚ))

/-! ## `task/graph/loss.py` — `RankingLoss.forward` (lines 21–32)

```python
pred_loss = (pred_loss - pred_loss.flip(0))[:len(pred_loss)//2]
target_loss = (target_loss - target_loss.flip(0))[:len(target_loss)//2]
target_loss = target_loss.detach()
one = 2 * torch.sign(torch.clamp(target_loss, min=0)) - 1
loss = torch.sum(torch.clamp(1.0 - one * pred_loss, min=0))
loss = loss / pred_loss.size(0)
```

`detach()` is a gradient-graph operation that is the identity on values, so it
has no counterpart in the value-level embedding.
-/

/-- The reverse-and-halve transform applied to each of the two inputs:
`(t - t.flip(0))[:len(t)//2]` (lines 22 and 24; `len` is evaluated on the
original tensor). -/
def ranking_half (l : List ℚ) : List ℚ :=
  (torchSub l (torchFlip0 l)).take (l.length / 2)

/-- `RankingLoss.forward` of `task/graph/loss.py`, value level. The final
division is by `pred_loss.size(0)` after the reassignment, i.e. by the length
of the halved predicted-difference tensor. -/
def RankingLoss.forward (pred_loss target_loss : List ℚ) : Option ℚ :=
  torchDivSize
    (torchSum ((torchMul
        ((ranking_half target_loss).map (fun t => 2 * torchSign (torchClampMin t 0) - 1))
        (ranking_half pred_loss)).map (fun y => torchClampMin (1 - y) 0)))
    (ranking_half pred_loss).length

/-! ### The specification's formula for the ranking loss (§4.4, claim C4) -/

/-- The per-pair sign the specification describes: `+1` when pair `i`'s first
target loss exceeds its partner's (`target_loss i - target_loss (N-1-i) > 0`),
else `-1`. -/
def ranking_pair_sign (target_loss : List ℚ) (n i : Nat) : ℚ :=
  if 0 < target_loss.getD i 0 - target_loss.getD (n - 1 - i) 0 then 1 else -1

/-- The specification's closed formula:
`(1/(N/2)) · Σ_{i<N/2} max(0, 1 − s_i · (pred_i − pred_{N−1−i}))`. -/
def ranking_loss_spec (pred_loss target_loss : List ℚ) : ℚ :=
  (1 / ((pred_loss.length / 2 : Nat) : ℚ)) *
    ∑ i in Finset.range (pred_loss.length / 2),
      max 0 (1 - ranking_pair_sign target_loss pred_loss.length i *
        (pred_loss.getD i 0 - pred_loss.getD (pred_loss.length - 1 - i) 0))

/-! ### Helper lemmas about list indexing and sums -/

theorem list_sum_eq_range_getD (l : List ℚ) :
    l.sum = ∑ i in Finset.range l.length, l.getD i 0 := by
  induction l with
  | nil => simp
  | cons x xs ih =>
    rw [List.sum_cons, List.length_cons, Finset.sum_range_succ']
    simp [List.getD_cons_succ, List.getD_cons_zero, ih, add_comm]

theorem getD_map_of_lt (g : ℚ → ℚ) (l : List ℚ) (i : Nat) (h : i < l.length) :
    (l.map g).getD i 0 = g (l.getD i 0) := by
  rw [List.getD_eq_getElem _ _ (by simpa using h), List.getD_eq_getElem _ _ h,
    List.getElem_map]

theorem getD_zipWith_of_lt (f : ℚ → ℚ → ℚ) (a b : List ℚ) (i : Nat)
    (ha : i < a.length) (hb : i < b.length) :
    (List.zipWith f a b).getD i 0 = f (a.getD i 0) (b.getD i 0) := by
  rw [List.getD_eq_getElem _ _ (by simp; omega), List.getD_eq_getElem _ _ ha,
    List.getD_eq_getElem _ _ hb, List.getElem_zipWith]

theorem getD_take_of_lt (l : List ℚ) (k i : Nat) (h : i < k) (hl : i < l.length) :
    (l.take k).getD i 0 = l.getD i 0 := by
  rw [List.getD_eq_getElem _ _ (by simp; omega), List.getD_eq_getElem _ _ hl,
    List.getElem_take l]

theorem getD_reverse_of_lt (l : List ℚ) (i : Nat) (h : i < l.length) :
    l.reverse.getD i 0 = l.getD (l.length - 1 - i) 0 := by
  rw [List.getD_eq_getElem _ _ (by simpa using h), List.getD_eq_getElem _ _ (by omega),
    List.getElem_reverse]

theorem ranking_half_length (l : List ℚ) :
    (ranking_half l).length = l.length / 2 := by
  simp only [ranking_half, torchSub, torchFlip0, List.length_take, List.length_zipWith,
    List.length_reverse, Nat.min_self]
  omega

theorem ranking_half_getD (l : List ℚ) (i : Nat) (h : i < l.length / 2) :
    (ranking_half l).getD i 0 = l.getD i 0 - l.getD (l.length - 1 - i) 0 := by
  have hl : i < l.length := lt_of_lt_of_le h (Nat.div_le_self _ _)
  rw [ranking_half, getD_take_of_lt _ _ _ h
      (by simp only [torchSub, torchFlip0, List.length_zipWith, List.length_reverse,
        Nat.min_self]; exact hl),
    torchSub, torchFlip0, getD_zipWith_of_lt _ _ _ _ hl (by simpa using hl),
    getD_reverse_of_lt _ _ hl]

theorem sign_clamp_eq (t : ℚ) :
    2 * torchSign (torchClampMin t 0) - 1 = if 0 < t then 1 else -1 := by
  by_cases h : 0 < t
  · rw [torchClampMin, max_eq_left h.le, torchSign, if_pos h, if_pos h]
    norm_num
  · rw [torchClampMin, max_eq_right (le_of_not_lt h), torchSign, if_neg h]
    norm_num

/-! ### Claims C4, C5, C10 about `RankingLoss.forward` -/

/-- Claim C4: for every even batch length `N > 0` and every pair of equal-length
input tensors, `RankingLoss.forward` returns
`(1/(N/2)) · Σ_{i<N/2} max(0, 1 − s_i · (pred_i − pred_{N−1−i}))` with
`s_i = +1` iff `target_i − target_{N−1−i} > 0` (else `-1`); the divisor is the
number of pairs `N/2`, not the batch size `N`. -/
theorem ranking_loss_even (pred_loss target_loss : List ℚ)
    (hlen : target_loss.length = pred_loss.length)
    (heven : pred_loss.length % 2 = 0) (hpos : 0 < pred_loss.length) :
    RankingLoss.forward pred_loss target_loss
      = some (ranking_loss_spec pred_loss target_loss) := by
  have hnz : pred_loss.length / 2 ≠ 0 := by omega
  have hp : (ranking_half pred_loss).length = pred_loss.length / 2 := ranking_half_length _
  have ht : (ranking_half target_loss).length = pred_loss.length / 2 := by
    rw [ranking_half_length, hlen]
  unfold RankingLoss.forward torchDivSize
  rw [hp, if_neg hnz]
  congr 1
  rw [ranking_loss_spec, one_div_mul_eq_div]
  congr 1
  rw [torchSum, list_sum_eq_range_getD]
  have hLlen : ((torchMul
      ((ranking_half target_loss).map (fun t => 2 * torchSign (torchClampMin t 0) - 1))
      (ranking_half pred_loss)).map (fun y => torchClampMin (1 - y) 0)).length
      = pred_loss.length / 2 := by
    rw [List.length_map, torchMul, List.length_zipWith, List.length_map, ht, hp, Nat.min_self]
  rw [hLlen]
  refine Finset.sum_congr rfl (fun i hi => ?_)
  rw [Finset.mem_range] at hi
  rw [getD_map_of_lt _ _ _ (by
      rw [torchMul, List.length_zipWith, List.length_map, ht, hp, Nat.min_self]; exact hi),
    torchMul, getD_zipWith_of_lt _ _ _ _ (by rw [List.length_map, ht]; exact hi)
      (by rw [hp]; exact hi),
    getD_map_of_lt _ _ _ (by rw [ht]; exact hi),
    ranking_half_getD _ _ (by rw [hlen]; exact hi),
    ranking_half_getD _ _ hi,
    sign_clamp_eq, hlen]
  simp only [ranking_pair_sign, torchClampMin]
  rw [max_comm]

/-- Witness for C4 at the concrete even batch
`pred = [2,1,0,3]`, `target = [4,1,2,3]`. -/
theorem ranking_loss_even_witness :
    RankingLoss.forward [(2:ℚ), 1, 0, 3] [(4:ℚ), 1, 2, 3]
      = some (ranking_loss_spec [(2:ℚ), 1, 0, 3] [(4:ℚ), 1, 2, 3]) :=
  ranking_loss_even _ _ rfl rfl (by decide)

/-- Counterexample to claim C5 as stated: on the odd-length batch
`pred = [1,2,3]`, `target = [3,1,2]`, the predicted-difference half and the
target-difference half have the SAME length (both `1`, there is no mismatch)
and the ranking loss is a well-defined rational. -/
theorem ranking_odd_lengths_match :
    (ranking_half [(1:ℚ), 2, 3]).length = (ranking_half [(3:ℚ), 1, 2]).length ∧
    (RankingLoss.forward [(1:ℚ), 2, 3] [(3:ℚ), 1, 2]).isSome = true :=
  ⟨rfl, rfl⟩

/-- Claim C5 amended: for every odd batch length the two halves have the SAME
length `⌊N/2⌋` (both slices are `[:N//2]` of equal-length difference tensors),
and for odd `N ≥ 3` the loss is well-defined; only `N ≤ 1` leaves a zero
divisor. -/
theorem ranking_odd_well_defined (pred_loss target_loss : List ℚ)
    (hlen : target_loss.length = pred_loss.length)
    (hodd : pred_loss.length % 2 = 1) :
    (ranking_half pred_loss).length = (ranking_half target_loss).length ∧
    (3 ≤ pred_loss.length → (RankingLoss.forward pred_loss target_loss).isSome = true) := by
  constructor
  · rw [ranking_half_length, ranking_half_length, hlen]
  · intro h3
    unfold RankingLoss.forward torchDivSize
    rw [ranking_half_length]
    have hnz : ¬ pred_loss.length / 2 = 0 := by omega
    simp [hnz]

/-- Witness for the amended C5 at the odd batch `pred = [1,2,3]`, `target = [5,4,6]`. -/
theorem ranking_odd_well_defined_witness :
    (ranking_half [(1:ℚ), 2, 3]).length = (ranking_half [(5:ℚ), 4, 6]).length ∧
    (RankingLoss.forward [(1:ℚ), 2, 3] [(5:ℚ), 4, 6]).isSome = true := by
  have h := ranking_odd_well_defined [(1:ℚ), 2, 3] [(5:ℚ), 4, 6] rfl rfl
  exact ⟨h.1, h.2 (by decide)⟩

/-- Claim C10: for batch length 0 or 1 the reverse-and-halve transform yields
zero pairs, and the final division divides the empty pair sum by the zero pair
count, so the result is undefined (`none`, NaN in the library — no descriptive
error is raised and no well-defined non-negative loss is returned). -/
theorem ranking_degenerate_divides_by_zero (pred_loss target_loss : List ℚ)
    (h : pred_loss.length = 0 ∨ pred_loss.length = 1) :
    (ranking_half pred_loss).length = 0 ∧
    RankingLoss.forward pred_loss target_loss = none := by
  have h0 : pred_loss.length / 2 = 0 := by omega
  refine ⟨by rw [ranking_half_length, h0], ?_⟩
  unfold RankingLoss.forward torchDivSize
  rw [ranking_half_length, h0]
  simp

/-- Witness for C10 at the singleton batch `pred = [5]`, `target = [7]`. -/
theorem ranking_degenerate_witness :
    (ranking_half [(5:ℚ)]).length = 0 ∧
    RankingLoss.forward [(5:ℚ)] [(7:ℚ)] = none :=
  ranking_degenerate_divides_by_zero [(5:ℚ)] [(7:ℚ)] (Or.inr rfl)

/-! ## `query/graph/vae.py` — `Residual` (lines 7–22), value level

Images are modelled as rational-valued functions of (channel, row, column)
indices ranging over ℤ. A convolution reads its input through shifted indices;
zero padding is realised by the inputs considered here vanishing outside every
window (the claims below only evaluate the block on the all-zero image).
-/

/-- A (channel, row, column)-indexed rational image. -/
def Tensor3 : Type := ℤ → ℤ → ℤ → ℚ

/-- `nn.Conv2d(in_channels, out_channels, kernel_size=k, stride=s, padding=p,
bias=False)`: output pixel `(oc, i, j)` is the sum over the `inC` input
channels and the `k×k` window of `weight · input`. -/
def conv2d (inC k stride pad : ℕ) (weight : ℤ → ℤ → ℤ → ℤ → ℚ) (x : Tensor3) : Tensor3 :=
  fun oc i j =>
    ∑ ic in Finset.range inC, ∑ a in Finset.range k, ∑ b in Finset.range k,
      weight oc (ic : ℤ) (a : ℤ) (b : ℤ) *
        x (ic : ℤ) ((stride : ℤ) * i + (a : ℤ) - (pad : ℤ))
          ((stride : ℤ) * j + (b : ℤ) - (pad : ℤ))

/-- `nn.ReLU`, pointwise on an image. -/
def torchReLU (x : Tensor3) : Tensor3 := fun c i j => max (x c i j) 0

/-- The `Residual` module of `query/graph/vae.py`: channel counts and the two
bias-free convolution weight tensors. -/
structure Residual where
  in_channels : ℕ
  num_residual_hiddens : ℕ
  conv1_weight : ℤ → ℤ → ℤ → ℤ → ℚ
  conv2_weight : ℤ → ℤ → ℤ → ℤ → ℚ

/-- `Residual._block`: ReLU → 3×3 stride-1 pad-1 conv (no bias, to
`num_residual_hiddens` channels) → ReLU → 1×1 stride-1 conv (no bias, to
`num_hiddens` channels). -/
def Residual.block (r : Residual) (x : Tensor3) : Tensor3 :=
  conv2d r.num_residual_hiddens 1 1 0 r.conv2_weight
    (torchReLU (conv2d r.in_channels 3 1 1 r.conv1_weight (torchReLU x)))

/-- `Residual.forward` (line 22): `x + self._block(x)`, the identity shortcut. -/
def Residual.forward (r : Residual) (x : Tensor3) : Tensor3 :=
  fun c i j => x c i j + r.block x c i j

/-- Claim C9: a residual block whose two convolution weight tensors are all
zero maps the all-zero input to exactly the input (the branch output is zero,
and the shortcut adds it to the input). -/
theorem residual_zero_identity (r : Residual) (x : Tensor3)
    (hw1 : ∀ oc ic a b, r.conv1_weight oc ic a b = 0)
    (hw2 : ∀ oc ic a b, r.conv2_weight oc ic a b = 0)
    (hx : ∀ c i j, x c i j = 0) :
    Residual.forward r x = x := by
  funext c i j
  simp only [Residual.forward, Residual.block, conv2d]
  simp [hw2]

/-- Witness for C9: the concrete all-zero residual block applied to the
all-zero image. -/
def zeroTensor3 : Tensor3 := fun _ _ _ => 0

def zeroConvWeight : ℤ → ℤ → ℤ → ℤ → ℚ := fun _ _ _ _ => 0

def zeroResidual : Residual :=
  { in_channels := 64, num_residual_hiddens := 32,
    conv1_weight := zeroConvWeight, conv2_weight := zeroConvWeight }

theorem residual_zero_identity_witness :
    Residual.forward zeroResidual zeroTensor3 = zeroTensor3 :=
  residual_zero_identity zeroResidual zeroTensor3
    (fun _ _ _ _ => rfl) (fun _ _ _ _ => rfl) (fun _ _ _ => rfl)

/-! ## `query/graph/vae.py` — shape level (claim C2)

Shape propagation through the convolutions of `Encoder`, the extra stride-2
convolution `VAE.conv1`, and the `nn.Linear` projections `fc_mu`/`fc_var`
(which act on the LAST dimension of their input tensor).
-/

/-- Spatial output size of `nn.Conv2d` with kernel `k`, stride `s`, padding
`p` (dilation 1): `⌊(n + 2p − k)/s⌋ + 1`. -/
def conv2dOutDim (n k s p : ℕ) : ℕ := (n + 2 * p - k) / s + 1

/-- The (channels, height, width) shape of one example's activation tensor. -/
structure TensorShape where
  channels : ℕ
  height : ℕ
  width : ℕ
deriving DecidableEq

def conv2dShape (outC k s p : ℕ) (sh : TensorShape) : TensorShape :=
  ⟨outC, conv2dOutDim sh.height k s p, conv2dOutDim sh.width k s p⟩

/-- Shape through one `Residual` block: 3×3 stride-1 pad-1 conv to `resH`
channels, then 1×1 stride-1 conv back to `H` channels (the shortcut addition
requires — and here preserves — the input shape). -/
def residualShape (H resH : ℕ) (sh : TensorShape) : TensorShape :=
  conv2dShape H 1 1 0 (conv2dShape resH 3 1 1 sh)

/-- Shape through `ResidualStack`: `layers` iterations of `residualShape`. -/
def residualStackShape (H resH layers : ℕ) (sh : TensorShape) : TensorShape :=
  (residualShape H resH)^[layers] sh

/-- Shape through `Encoder.forward`: `_conv_1` (k4 s2 p1, to `H/2` channels),
`_conv_2` (k4 s2 p1, to `H`), `_conv_3` (k3 s1 p1, to `H`), residual stack. -/
def Encoder.forwardShape (H resH layers : ℕ) (sh : TensorShape) : TensorShape :=
  residualStackShape H resH layers
    (conv2dShape H 3 1 1 (conv2dShape H 4 2 1 (conv2dShape (H / 2) 4 2 1 sh)))

/-- Shape through `VAE.conv1` (k3 s2 p1, to `H` channels), applied by
`VAE.forward` to the encoder output. -/
def VAE.conv1Shape (H : ℕ) (sh : TensorShape) : TensorShape :=
  conv2dShape H 3 2 1 sh

/-- `nn.Linear(inF, outF)` applied to a tensor whose last dimension is
`lastDim`: well-typed (yielding feature dimension `outF`) exactly when
`lastDim = inF`, otherwise a runtime shape-mismatch (`none`). -/
def linearLastDim (inF outF lastDim : ℕ) : Option ℕ :=
  if lastDim = inF then some outF else none

/-- The latent-statistics computation of `VAE.forward` (lines 154–155):
`fc_mu = nn.Linear(H*16, H)` applied to the UNflattened encoder output, whose
last dimension is its spatial width. -/
def VAE.latentStatsDim (H resH layers : ℕ) (input : TensorShape) : Option ℕ :=
  linearLastDim (H * 16) H (Encoder.forwardShape H resH layers input).width

theorem residual_stack_shape_fixed (H resH layers : ℕ) :
    residualStackShape H resH layers ⟨H, 8, 8⟩ = ⟨H, 8, 8⟩ := by
  induction layers with
  | zero => rfl
  | succ n ih =>
    have hstep : residualStackShape H resH (n + 1) (⟨H, 8, 8⟩ : TensorShape)
        = residualShape H resH (residualStackShape H resH n ⟨H, 8, 8⟩) :=
      Function.iterate_succ_apply' _ _ _
    rw [hstep, ih]
    simp [residualShape, conv2dShape, conv2dOutDim]

theorem encoder_shape_32 (H resH layers : ℕ) :
    Encoder.forwardShape H resH layers ⟨3, 32, 32⟩ = ⟨H, 8, 8⟩ := by
  have hconv : conv2dShape H 3 1 1 (conv2dShape H 4 2 1 (conv2dShape (H / 2) 4 2 1 ⟨3, 32, 32⟩))
      = (⟨H, 8, 8⟩ : TensorShape) := by
    simp [conv2dShape, conv2dOutDim]
  rw [Encoder.forwardShape, hconv, residual_stack_shape_fixed]

/-- Counterexample to claim C2: with `num_hiddens = 128`,
`num_residual_hiddens = 32`, 2 residual layers, on a 3×32×32 input the encoder
output is 128×8×8 — spatial size 8×8, not 4×4 — and the `fc_mu`/`fc_var`
application in `VAE.forward` is not well-typed (its input's last dimension is
8, not `128·16`). -/
theorem vae_latent_shape_counterexample :
    Encoder.forwardShape 128 32 2 ⟨3, 32, 32⟩ = ⟨128, 8, 8⟩ ∧
    Encoder.forwardShape 128 32 2 ⟨3, 32, 32⟩ ≠ ⟨128, 4, 4⟩ ∧
    VAE.latentStatsDim 128 32 2 ⟨3, 32, 32⟩ = none := by
  decide

/-- Claim C2 amended: for every hidden width `H` (and any residual
configuration) the encoder output on a 3-channel 32×32 image has `H` channels
and spatial size 8×8; the extra stride-2 `VAE.conv1` reduces it to 4×4
(matching the `H×16` input size of `fc_mu`/`fc_var`); but `VAE.forward`
applies `fc_mu`/`fc_var` to the unflattened 8×8 encoder output, whose last
dimension 8 never equals `H·16`, so the latent-statistics computation is NOT
well-typed on 32×32 inputs. -/
theorem vae_latent_shape_amended (H resH layers : ℕ) :
    Encoder.forwardShape H resH layers ⟨3, 32, 32⟩ = ⟨H, 8, 8⟩ ∧
    VAE.conv1Shape H (Encoder.forwardShape H resH layers ⟨3, 32, 32⟩) = ⟨H, 4, 4⟩ ∧
    VAE.latentStatsDim H resH layers ⟨3, 32, 32⟩ = none := by
  have he := encoder_shape_32 H resH layers
  refine ⟨he, ?_, ?_⟩
  · rw [he]
    simp [VAE.conv1Shape, conv2dShape, conv2dOutDim]
  · unfold VAE.latentStatsDim
    rw [he]
    have h8 : ¬ (8 = H * 16) := by omega
    simp [linearLastDim, h8]

/-! ## Claim C1 — call sites of the uncertainty network in `Strategy`

`VAE.forward(self, x)` declares one positional parameter beyond `self` and
returns the four values `x_recon, _z, mu, logvar` (vae.py lines 150–171).
`Strategy.train_by_epoch` invokes the network twice (strategy.py lines 148 and
178); a call site is recorded by how many positional arguments it passes after
`self` and into how many variables it unpacks the returned value.
-/

/-- A call site of the uncertainty network's forward pass. -/
structure CallSite where
  numArgs : ℕ
  numUnpacked : ℕ
deriving DecidableEq

/-- `VAE.forward(self, x)`: one positional parameter after `self`. -/
def VAE.forwardNumParams : ℕ := 1

/-- `VAE.forward` returns `x_recon, _z, mu, logvar`: four outputs. -/
def VAE.forwardNumOutputs : ℕ := 4

/-- strategy.py line 148:
`vq_loss, data_recon, perplexity, distance = self.vae(data, u_score)`. -/
def Strategy.trainCallSite : CallSite := ⟨2, 4⟩

/-- strategy.py line 178:
`vq_loss, data_recon, perplexity = self.vae(data, u_score)`. -/
def Strategy.evalCallSite : CallSite := ⟨2, 3⟩

/-- A call site conforms to the forward contract when it passes exactly the
declared number of arguments and unpacks exactly the declared number of
outputs. -/
def conformsToForward (c : CallSite) : Bool :=
  c.numArgs == VAE.forwardNumParams && c.numUnpacked == VAE.forwardNumOutputs

/-- Counterexample to claim C1: neither of `Strategy.train_by_epoch`'s two
invocations of the uncertainty network conforms to `VAE.forward`'s contract —
both pass two arguments, and the evaluation site additionally unpacks three
values rather than four. -/
theorem strategy_vae_call_mismatch :
    conformsToForward Strategy.trainCallSite = false ∧
    conformsToForward Strategy.evalCallSite = false := by decide

/-- Claim C1 amended: both invocations pass TWO arguments (the data batch and
the uncertainty score); the training step unpacks four values and the
evaluation step three, while `VAE.forward` itself declares one parameter and
returns four values — so neither invocation conforms to the forward contract. -/
theorem strategy_vae_call_sites :
    Strategy.trainCallSite.numArgs = 2 ∧ Strategy.trainCallSite.numUnpacked = 4 ∧
    Strategy.evalCallSite.numArgs = 2 ∧ Strategy.evalCallSite.numUnpacked = 3 ∧
    VAE.forwardNumParams = 1 ∧ VAE.forwardNumOutputs = 4 ∧
    conformsToForward Strategy.trainCallSite = false ∧
    conformsToForward Strategy.evalCallSite = false := by decide

/-! ## Claim C3 — the evaluation pass's accuracy accounting (strategy.py 164–189) -/

/-- The `total`/`correct` counters of the evaluation pass, initialized to zero
at lines 167–168. -/
structure EvalCounters where
  total : ℕ
  correct : ℕ
deriving DecidableEq

/-- One iteration of the evaluation loop (lines 170–183): the body computes
the forward pass and losses but contains no assignment to `total` or
`correct`, so on the counter state it is the identity. -/
def evalBatchStep (c : EvalCounters) : EvalCounters := c

/-- The counter state after an evaluation pass over `numBatches` batches. -/
def evalCountersAfter (numBatches : ℕ) : EvalCounters :=
  evalBatchStep^[numBatches] ⟨0, 0⟩

/-- Python's true division `correct / total`: raises `ZeroDivisionError`
(`none`) when the denominator is zero. -/
def pyDiv (a b : ℕ) : Option ℚ :=
  if b = 0 then none else some ((a : ℚ) / (b : ℚ))

/-- The accuracy ratio `correct / total` computed at line 187. -/
def testAccuracy (numBatches : ℕ) : Option ℚ :=
  pyDiv (evalCountersAfter numBatches).correct (evalCountersAfter numBatches).total

/-- Line 187–189: the improvement comparison guarding `save_checkpoint()`;
it yields a decision only when the accuracy ratio was actually computed. -/
def checkpointSaved (acc : Option ℚ) (best_acc : ℚ) : Option Bool :=
  acc.map (fun a => decide (best_acc < a))

/-- Counterexample to claim C3: after a concrete five-batch evaluation pass the
accuracy ratio `correct / total` is `0 / 0`, which raises rather than being
"computed without error". -/
theorem test_accuracy_raises : testAccuracy 5 = none := by decide

/-- Claim C3 amended: for every number of evaluation batches, the
`total`/`correct` counters are still both zero when line 187 runs, so the
accuracy ratio `correct / total` raises `ZeroDivisionError`; the improvement
comparison never produces a decision and `vae.pth.tar` is never saved from it. -/
theorem eval_counters_never_populated (numBatches : ℕ) (best_acc : ℚ) :
    evalCountersAfter numBatches = ⟨0, 0⟩ ∧
    testAccuracy numBatches = none ∧
    checkpointSaved (testAccuracy numBatches) best_acc = none := by
  have h : evalCountersAfter numBatches = ⟨0, 0⟩ := by
    induction numBatches with
    | zero => rfl
    | succ n ih =>
      have hstep : evalCountersAfter (n + 1) = evalBatchStep (evalCountersAfter n) :=
        Function.iterate_succ_apply' _ _ _
      rw [hstep, ih]
      rfl
  have hacc : testAccuracy numBatches = none := by
    rw [testAccuracy, h]
    rfl
  exact ⟨h, hacc, by rw [hacc]; rfl⟩

/-! ## Claim C6 — the per-batch training loss (strategy.py 150–157)

```python
recon_error = self.loss(data_recon, data)
loss = recon_error + vq_loss
if self.step_cnt:   # distance loss
    loss += torch.mean(torch.abs(u_score - distance / self.config.vae_distance))
loss.backward()
```
-/

/-- `torch.mean` of a rank-1 tensor: sum over element count (`none`, i.e. NaN,
for an empty tensor). -/
def torchMean (l : List ℚ) : Option ℚ := torchDivSize l.sum l.length

/-- The per-batch loss of `Strategy.train_by_epoch`, as a function of the two
scalar loss terms, the per-example uncertainty scores and network distances,
the `vae_distance` normalizer and the cycle index: the auxiliary mean-absolute
difference term is added exactly when `step_cnt` is truthy (non-zero). -/
def Strategy.batchLoss (step_cnt : ℕ) (recon_error vq_loss : ℚ)
    (u_score distance : List ℚ) (vae_distance : ℚ) : Option ℚ :=
  if step_cnt ≠ 0 then
    (torchMean ((torchSub u_score (distance.map (fun d => d / vae_distance))).map
        (fun x => |x|))).map (fun m => recon_error + vq_loss + m)
  else some (recon_error + vq_loss)

/-- Claim C6: the back-propagated per-batch loss equals
`recon_error + vq_loss` when `step_cnt = 0`, and
`recon_error + vq_loss + (Σ_i |u_i − d_i / vae_distance|) / n` (the mean
absolute difference) when `step_cnt ≠ 0`. -/
theorem strategy_batch_loss_spec (step_cnt : ℕ) (recon_error vq_loss : ℚ)
    (u_score distance : List ℚ) (vae_distance : ℚ)
    (hlen : distance.length = u_score.length) (hpos : 0 < u_score.length) :
    Strategy.batchLoss step_cnt recon_error vq_loss u_score distance vae_distance
      = some (if step_cnt = 0 then recon_error + vq_loss
        else recon_error + vq_loss +
          (∑ i in Finset.range u_score.length,
            |u_score.getD i 0 - distance.getD i 0 / vae_distance|) / (u_score.length : ℚ)) := by
  by_cases hs : step_cnt = 0
  · simp [Strategy.batchLoss, hs]
  · have hLlen : ((torchSub u_score (distance.map (fun d => d / vae_distance))).map
        (fun x => |x|)).length = u_score.length := by
      rw [List.length_map, torchSub, List.length_zipWith, List.length_map, hlen, Nat.min_self]
    unfold Strategy.batchLoss torchMean torchDivSize
    have hsum : ((torchSub u_score (distance.map (fun d => d / vae_distance))).map
          (fun x => |x|)).sum
        = ∑ i in Finset.range u_score.length,
            |u_score.getD i 0 - distance.getD i 0 / vae_distance| := by
      rw [list_sum_eq_range_getD, hLlen]
      refine Finset.sum_congr rfl (fun i hi => ?_)
      rw [Finset.mem_range] at hi
      rw [getD_map_of_lt _ _ _ (by
          rw [torchSub, List.length_zipWith, List.length_map, hlen, Nat.min_self]; exact hi),
        torchSub, getD_zipWith_of_lt _ _ _ _ hi (by rw [List.length_map, hlen]; exact hi),
        getD_map_of_lt _ _ _ (by rw [hlen]; exact hi)]
    rw [if_pos hs, hLlen, if_neg (by omega), if_neg hs, Option.map_some', hsum]

/-- Witness for C6 at `step_cnt = 1`, `recon_error = 2`, `vq_loss = 3`,
`u_score = [1, 2]`, `distance = [4, 6]`, `vae_distance = 2`: the loss is
`2 + 3 + (|1 − 2| + |2 − 3|)/2 = 6`. -/
theorem strategy_batch_loss_witness :
    Strategy.batchLoss 1 2 3 [(1:ℚ), 2] [(4:ℚ), 6] 2 = some 6 := by
  rw [strategy_batch_loss_spec 1 2 3 [(1:ℚ), 2] [(4:ℚ), 6] 2 rfl (by decide)]
  norm_num [Finset.sum_range_succ]

/-! ## Claim C7 — the learning-rate scheduler (strategy.py line 74)

```python
self.vae_scheduler = torch.optim.lr_scheduler.ReduceLROnPlateau(
    self.vae_opt, mode='min', factor=0.8, cooldown=8)
```

The scheduler is part of the external optimizer library; its stepping rule is
modelled here from that library's documented behaviour for mode `min` with a
relative threshold: a metric improves when `metric < best · (1 − threshold)`
(anything beats the initial infinity sentinel); after a step, if the count of
consecutive non-improving steps EXCEEDS `patience` the learning rate is
multiplied by `factor` and a `cooldown`-step window begins during which the
bad-step count is held at zero. The constructor call fixes `factor = 0.8` and
`cooldown = 8` only, leaving every other parameter at its library default — in
particular `patience` at `10` and `threshold` at `1e-4`.
-/

structure PlateauParams where
  factor : ℚ
  patience : ℕ
  cooldown : ℕ
  threshold : ℚ
deriving DecidableEq

/-- The parameter record produced by the constructor call at line 74. -/
def Strategy.vae_scheduler : PlateauParams :=
  { factor := 8 / 10, patience := 10, cooldown := 8, threshold := 1 / 10000 }

structure PlateauState where
  lr : ℚ
  best : Option ℚ
  numBadEpochs : ℕ
  cooldownCounter : ℕ
deriving DecidableEq

def plateauInit (lr0 : ℚ) : PlateauState :=
  { lr := lr0, best := none, numBadEpochs := 0, cooldownCounter := 0 }

/-- `is_better` for mode `min`, relative threshold; `none` is the initial
infinity sentinel, which any metric beats. -/
def plateauIsBetter (p : PlateauParams) (metric : ℚ) : Option ℚ → Bool
  | none => true
  | some best => decide (metric < best * (1 - p.threshold))

/-- One `scheduler.step(metric)`. -/
def plateauStep (p : PlateauParams) (s : PlateauState) (metric : ℚ) : PlateauState :=
  let s1 := if plateauIsBetter p metric s.best
    then { s with best := some metric, numBadEpochs := 0 }
    else { s with numBadEpochs := s.numBadEpochs + 1 }
  let s2 := if 0 < s1.cooldownCounter
    then { s1 with cooldownCounter := s1.cooldownCounter - 1, numBadEpochs := 0 }
    else s1
  if p.patience < s2.numBadEpochs
    then { s2 with lr := s2.lr * p.factor, cooldownCounter := p.cooldown, numBadEpochs := 0 }
    else s2

/-- Stepping the scheduler on a sequence of monitored metrics, starting from
learning rate `lr0`. -/
def plateauRun (p : PlateauParams) (metrics : List ℚ) (lr0 : ℚ) : PlateauState :=
  metrics.foldl (plateauStep p) (plateauInit lr0)

/-- Counterexample to claim C7: feed the constructed scheduler a first metric
followed by 8 consecutive non-improving metrics — the learning rate is NOT
reduced (it is still `1`, with 8 bad epochs on record), because the
constructor left `patience` at its default of 10. -/
theorem scheduler_eight_steps_no_reduction :
    (plateauRun Strategy.vae_scheduler (List.replicate 9 1) 1).lr = 1 ∧
    (plateauRun Strategy.vae_scheduler (List.replicate 9 1) 1).numBadEpochs = 8 := by
  norm_num [plateauRun, plateauInit, plateauStep, plateauIsBetter, Strategy.vae_scheduler,
    List.replicate, List.foldl_cons, List.foldl_nil]

/-- Claim C7 amended: the scheduler built at line 74 has reduction factor 0.8
and an 8-step cooldown, but its patience is the library default 10: the first
reduction happens only once 11 consecutive steps have seen no improvement
(10 bad steps leave the rate untouched), and after the reduction the 8-step
cooldown window begins. -/
theorem scheduler_patience_ten :
    Strategy.vae_scheduler.factor = 8 / 10 ∧
    Strategy.vae_scheduler.cooldown = 8 ∧
    Strategy.vae_scheduler.patience = 10 ∧
    (plateauRun Strategy.vae_scheduler (List.replicate 11 1) 1).lr = 1 ∧
    (plateauRun Strategy.vae_scheduler (List.replicate 12 1) 1).lr = 8 / 10 ∧
    (plateauRun Strategy.vae_scheduler (List.replicate 12 1) 1).cooldownCounter = 8 := by
  norm_num [plateauRun, plateauInit, plateauStep, plateauIsBetter, Strategy.vae_scheduler,
    List.replicate, List.foldl_cons, List.foldl_nil]

/-! ## Claim C8 — `Strategy.load_checkpoint` (strategy.py 101–112)

```python
try:
    print("Loading checkpoint '{}'".format(filename))
    checkpoint = torch.load(filename)
    self.task.load_state_dict(checkpoint['task_state_dict'])
except OSError as e:
    print("No checkpoint exists from '{}'. Skipping...".format(...))
    print("**First time to train**")
```
-/

/-- The error `torch.load` raises on a missing file (`FileNotFoundError`, a
subclass of `OSError`). -/
inductive CheckpointLoadError
  | osError
deriving DecidableEq

/-- A classifier checkpoint record: a mapping with the single key
`task_state_dict` holding the classifier weights (of some weight type `W`). -/
structure TaskCheckpoint (W : Type) where
  task_state_dict : W

/-- `torch.load` on a filesystem state: the checkpoint when the file exists,
an `OSError` when it does not. -/
def torchLoadFile {W : Type} (file : Option (TaskCheckpoint W)) :
    Except CheckpointLoadError (TaskCheckpoint W) :=
  match file with
  | some ck => Except.ok ck
  | none => Except.error CheckpointLoadError.osError

/-- `Strategy.load_checkpoint`: load the checkpoint and install its
`task_state_dict` entry into the classifier; the `except OSError` arm prints
and continues, leaving the classifier's current (randomly initialized)
weights in place. The function is total — the failure never escapes, so the
surrounding construction completes. -/
def Strategy.load_checkpoint {W : Type} (file : Option (TaskCheckpoint W))
    (task_weights : W) : W :=
  match torchLoadFile file with
  | Except.ok ck => ck.task_state_dict
  | Except.error _ => task_weights

/-- Claim C8: when `task.pth.tar` is absent the load failure is caught
locally and the classifier keeps its randomly initialized weights (the loader
returns normally); when the file exists, the weights are replaced by the
checkpoint's `task_state_dict` entry. -/
theorem strategy_load_checkpoint_spec {W : Type}
    (file : Option (TaskCheckpoint W)) (task_weights : W) :
    (file = none → Strategy.load_checkpoint file task_weights = task_weights) ∧
    (∀ ck, file = some ck →
      Strategy.load_checkpoint file task_weights = ck.task_state_dict) := by
  constructor
  · rintro rfl
    rfl
  · rintro ck rfl
    rfl

/-- Witness for C8: with integer weight blobs, a missing file keeps the
initial weights `7`, and a present checkpoint holding `3` installs `3`. -/
theorem strategy_load_checkpoint_witness :
    Strategy.load_checkpoint (none : Option (TaskCheckpoint ℤ)) 7 = 7 ∧
    Strategy.load_checkpoint (some (TaskCheckpoint.mk (3 : ℤ))) 7 = 3 :=
  ⟨(strategy_load_checkpoint_spec (none : Option (TaskCheckpoint ℤ)) 7).1 rfl,
   (strategy_load_checkpoint_spec (some (TaskCheckpoint.mk (3 : ℤ))) 7).2
     (TaskCheckpoint.mk 3) rfl⟩
